import Mathlib

/-!
Shallow embedding of the `nanomsg.rs` wrapper (src/src/lib.rs): the
`Protocol` enumeration, the `Socket` structure, `Socket::new`,
`Socket::bind` and the `Drop` implementation.  The native library
(`libnanomsg`) is external: its primitives appear as explicit function
parameters (`nn_socket`, `nn_bind`, `nn_shutdown`), so that every claim
can quantify over the value the native call returns.  The `result`
module (the error model) is not part of the provided sources and is
modelled from the spec.
-/

namespace Nanomsg

/-- Protocol enumeration from src/src/lib.rs lines 23-28: the four
logical messaging patterns. -/
inductive Protocol
  | Req
  | Rep
  | Push
  | Pull
  deriving DecidableEq, Repr

/-- Modelled from the spec: the `result` module (not under src/) defines a
closed enumeration of error kinds, with at least the two kinds used by
`Socket::new` and `Socket::bind`. -/
inductive ErrorKind
  | SocketInitializationError
  | SocketBindError
  deriving DecidableEq, Repr

/-- Modelled from the spec: `NanoError` pairs a human-readable message
with an `ErrorKind`; the constructor accepts any message and performs no
validation. -/
structure NanoError where
  description : String
  kind : ErrorKind
  deriving DecidableEq, Repr

/-- Modelled from the spec: the `NanoError` constructor simply stores the
message and the kind. -/
def NanoError.new (description : String) (kind : ErrorKind) : NanoError :=
  { description := description, kind := kind }

/-- Modelled from the spec: `NanoResult<T>` distinguishes success from a
typed error. -/
abbrev NanoResult (α : Type) := Except NanoError α

/-- Native address-family constant `AF_SP` of the nanomsg C library
(external boundary; the concrete value is irrelevant to the claims). -/
def AF_SP : Int := 1

/-- Native protocol identifier `NN_REQ` of the nanomsg C library. -/
def NN_REQ : Int := 48

/-- Native protocol identifier `NN_REP` of the nanomsg C library. -/
def NN_REP : Int := 49

/-- Native protocol identifier `NN_PUSH` of the nanomsg C library. -/
def NN_PUSH : Int := 80

/-- Native protocol identifier `NN_PULL` of the nanomsg C library. -/
def NN_PULL : Int := 81

/-- Socket structure from src/src/lib.rs lines 33-37.  The Rust struct
has fields `addr : Option<&'a str>`, `socket : c_int` and a zero-sized
lifetime marker; the marker carries no data and is omitted.  Note that
the struct stores no `Protocol` value. -/
structure Socket where
  addr : Option String
  socket : Int
  deriving DecidableEq, Repr

/-- Protocol translation from src/src/lib.rs lines 57-62: the `match` at
the top of `Socket::new` mapping each `Protocol` variant to its native
identifier. -/
def protoId : Protocol → Int
  | .Req => NN_REQ
  | .Rep => NN_REP
  | .Push => NN_PUSH
  | .Pull => NN_PULL

/-- `Socket::new` from src/src/lib.rs lines 55-79, parameterized by the
native primitive `nn_socket : (address_family, protocol_id) → handle`.
It translates the protocol, calls the native primitive, returns an error
of kind `SocketInitializationError` when the handle equals the sentinel
`-1`, and otherwise returns a socket holding the handle, with `addr`
initialized to `none`. -/
def Socket.new (nn_socket : Int → Int → Int) (protocol : Protocol) :
    NanoResult Socket :=
  let proto := protoId protocol
  let socket := nn_socket AF_SP proto
  if socket = -1 then
    Except.error (NanoError.new
      ("Failed to create a new nanomsg socket. Error: \x7b\x7d")
      ErrorKind.SocketInitializationError)
  else
    Except.ok { addr := none, socket := socket }

/-- `Socket::bind` from src/src/lib.rs lines 107-115, parameterized by
the native primitive `nn_bind : (handle, address) → status`.  The Rust
method takes `&mut self` but never assigns to any field, so the
embedding passes the socket state through and returns it unchanged
alongside the result.  On the sentinel `-1` it returns an error of kind
`SocketBindError` whose message is the source format string with the
attempted address appended. -/
def Socket.bind (nn_bind : Int → String → Int) (s : Socket)
    (addr : String) : NanoResult Unit × Socket :=
  let ret := nn_bind s.socket addr
  if ret = -1 then
    (Except.error (NanoError.new
      ("Failed to find the socket to the address: " ++ addr)
      ErrorKind.SocketBindError), s)
  else
    (Except.ok (), s)

/-- Native calls the wrapper can issue, for lifecycle traces. -/
inductive NativeCall
  | socketCall (af : Int) (proto : Int)
  | bindCall (fd : Int) (addr : String)
  | shutdownCall (fd : Int) (flags : Int)
  deriving DecidableEq, Repr

/-- Recognizer for shutdown calls in a trace. -/
def isShutdownCall : NativeCall → Bool
  | .shutdownCall _ _ => true
  | _ => false

/-- The `Drop` implementation from src/src/lib.rs lines 118-123: the
destructor issues exactly one native call, `nn_shutdown(self.socket, 0)`,
with flags `0`. -/
def Socket.dropEffect (s : Socket) : List NativeCall :=
  [NativeCall.shutdownCall s.socket 0]

/-- The `Drop` implementation's returned value: the destructor discards
the native shutdown return value, so its result does not depend on the
native primitive at all. -/
def Socket.drop (nn_shutdown : Int → Int → Int) (s : Socket) : Unit :=
  let _ := nn_shutdown s.socket 0
  ()

/-- Modelled from the spec: the single-owner scope lifecycle
`Created → Bound* → Released` of section 4.2 — a socket is created by
`Socket::new` (with the native create returning `v`), bound zero or more
times, and released automatically when its owning scope ends, which runs
the destructor.  The trace lists the native calls issued over the whole
lifecycle; on creation failure no socket exists and no destructor runs. -/
def scopeTrace (v : Int) (p : Protocol) (binds : List String) :
    List NativeCall :=
  match Socket.new (fun _ _ => v) p with
  | Except.error _ => [NativeCall.socketCall AF_SP (protoId p)]
  | Except.ok s =>
      NativeCall.socketCall AF_SP (protoId p) ::
        (binds.map (fun a => NativeCall.bindCall s.socket a) ++
          s.dropEffect)

lemma filter_shutdown_map_bind (fd : Int) (l : List String) :
    (l.map (fun a => NativeCall.bindCall fd a)).filter isShutdownCall
      = [] := by
  induction l with
  | nil => rfl
  | cons a t ih => simp [isShutdownCall, ih]

lemma socket_new_ok (v : Int) (p : Protocol) (h : v ≠ -1) :
    Socket.new (fun _ _ => v) p
      = Except.ok { addr := none, socket := v } := by
  simp [Socket.new, h]

lemma socket_new_ok_elim (f : Int → Int → Int) (p : Protocol)
    (s : Socket) (hok : Socket.new f p = Except.ok s) :
    f AF_SP (protoId p) ≠ -1 ∧ s.addr = none
      ∧ s.socket = f AF_SP (protoId p) := by
  obtain ⟨sa, sv⟩ := s
  by_cases h : f AF_SP (protoId p) = -1
  · exact absurd hok (by simp [Socket.new, h])
  · simp [Socket.new, h, Socket.mk.injEq] at hok
    exact ⟨h, hok.1.symm, hok.2.symm⟩

lemma bind_snd (g : Int → String → Int) (s : Socket) (addr : String) :
    (Socket.bind g s addr).2 = s := by
  by_cases h : g s.socket addr = -1 <;> simp [Socket.bind, h]

/-- C1 counterexample: `Socket::new` does not record the protocol.  With
the same native handle 5, the sockets produced for the distinct
protocols `Req` and `Rep` are literally the same value, so no function
of the returned `Socket` can recover the input protocol — the claim that
the returned socket's "recorded protocol equals the input" is false. -/
theorem c1_no_recorded_protocol :
    Socket.new (fun _ _ => 5) Protocol.Req
        = Socket.new (fun _ _ => 5) Protocol.Rep
      ∧ Protocol.Req ≠ Protocol.Rep
      ∧ ¬ ∃ rec : Socket → Protocol, ∀ p : Protocol,
          Socket.new (fun _ _ => 5) p
              = Except.ok { addr := none, socket := 5 }
            → rec { addr := none, socket := 5 } = p := by
  refine ⟨rfl, by decide, ?_⟩
  rintro ⟨rec, h⟩
  have h1 := h Protocol.Req rfl
  have h2 := h Protocol.Rep rfl
  rw [h1] at h2
  exact absurd h2 (by decide)

/-- C1 (amended): for every protocol `p`, if the native create primitive
returns a non-sentinel handle, then `Socket::new p` returns `Ok` with a
socket whose handle equals the value returned by the native call and
which is not yet bound to any address (`addr = none`); the socket does
not record the protocol. -/
theorem c1_new_success_shape (f : Int → Int → Int) (p : Protocol)
    (h : f AF_SP (protoId p) ≠ -1) :
    ∃ s : Socket, Socket.new f p = Except.ok s
      ∧ s.socket = f AF_SP (protoId p) ∧ s.addr = none := by
  refine ⟨{ addr := none, socket := f AF_SP (protoId p) }, ?_, rfl, rfl⟩
  simp [Socket.new, h]

/-- C1 witness: with a native primitive that returns handle 5 for the
`Pull` protocol, `Socket::new` succeeds with handle 5 and no address. -/
theorem c1_new_success_shape_witness :
    ∃ s : Socket, Socket.new (fun _ _ => 5) Protocol.Pull = Except.ok s
      ∧ s.socket = (5 : Int) ∧ s.addr = none :=
  c1_new_success_shape (fun _ _ => 5) Protocol.Pull (by decide)

/-- C2: the mapping from the logical `Protocol` enumeration to native
protocol identifiers is a total function fixed at compile time: every
variant is mapped to exactly one native identifier (the fixed table
`NN_REQ`, `NN_REP`, `NN_PUSH`, `NN_PULL`), and the translation cannot
fail for any input. -/
theorem c2_proto_map_total :
    (∀ p : Protocol, ∃! n : Int, protoId p = n)
      ∧ protoId Protocol.Req = NN_REQ
      ∧ protoId Protocol.Rep = NN_REP
      ∧ protoId Protocol.Push = NN_PUSH
      ∧ protoId Protocol.Pull = NN_PULL :=
  ⟨fun p => ⟨protoId p, rfl, fun _ h => h.symm⟩, rfl, rfl, rfl, rfl⟩

/-- C3: for every protocol, if the native create call returns the
failure sentinel `-1`, then `Socket::new` returns an error of kind
`SocketInitializationError` and produces no socket value. -/
theorem c3_new_failure (f : Int → Int → Int) (p : Protocol)
    (h : f AF_SP (protoId p) = -1) :
    ∃ e : NanoError, Socket.new f p = Except.error e
      ∧ e.kind = ErrorKind.SocketInitializationError
      ∧ ∀ s : Socket, Socket.new f p ≠ Except.ok s := by
  have he : Socket.new f p
      = Except.error (NanoError.new
          ("Failed to create a new nanomsg socket. Error: \x7b\x7d")
          ErrorKind.SocketInitializationError) := by
    simp [Socket.new, h]
  refine ⟨_, he, rfl, ?_⟩
  intro s hs
  rw [he] at hs
  exact Except.noConfusion hs

/-- C3 witness: with a native primitive that always returns the sentinel
`-1`, creating a `Req` socket yields a `SocketInitializationError`. -/
theorem c3_new_failure_witness :
    ∃ e : NanoError,
      Socket.new (fun _ _ => -1) Protocol.Req = Except.error e
      ∧ e.kind = ErrorKind.SocketInitializationError
      ∧ ∀ s : Socket,
          Socket.new (fun _ _ => -1) Protocol.Req ≠ Except.ok s :=
  c3_new_failure (fun _ _ => -1) Protocol.Req (by decide)

/-- C4: for every socket and every address, if the native bind call
returns the failure sentinel `-1`, then `bind` returns an error of kind
`SocketBindError` whose message contains the attempted address;
otherwise `bind` returns `Ok(())`. -/
theorem c4_bind_result (g : Int → String → Int) (s : Socket)
    (addr : String) :
    (g s.socket addr = -1 →
      ∃ e : NanoError, (Socket.bind g s addr).1 = Except.error e
        ∧ e.kind = ErrorKind.SocketBindError
        ∧ ∃ pre suf : String, e.description = pre ++ addr ++ suf)
    ∧ (g s.socket addr ≠ -1 →
        (Socket.bind g s addr).1 = Except.ok ()) := by
  constructor
  · intro h
    have he : (Socket.bind g s addr).1
        = Except.error (NanoError.new
            ("Failed to find the socket to the address: " ++ addr)
            ErrorKind.SocketBindError) := by
      simp [Socket.bind, h]
    exact ⟨_, he, rfl, "Failed to find the socket to the address: ",
      "", by simp [NanoError.new]⟩
  · intro h
    simp [Socket.bind, h]

/-- C4 witness: a native bind returning `-1` on handle 5 for the address
"tcp://bad" produces a `SocketBindError` whose message contains the
address, and a native bind returning `0` produces `Ok(())`. -/
theorem c4_bind_result_witness :
    (∃ e : NanoError,
       (Socket.bind (fun _ _ => -1) (Socket.mk none 5) ("tcp://bad")).1
           = Except.error e
       ∧ e.kind = ErrorKind.SocketBindError
       ∧ ∃ pre suf : String, e.description = pre ++ "tcp://bad" ++ suf)
    ∧ (Socket.bind (fun _ _ => 0) (Socket.mk none 5)
        ("ipc:///tmp/test.ipc")).1 = Except.ok () :=
  ⟨(c4_bind_result (fun _ _ => -1) (Socket.mk none 5) ("tcp://bad")).1
      rfl,
   (c4_bind_result (fun _ _ => 0) (Socket.mk none 5)
      ("ipc:///tmp/test.ipc")).2 (by decide)⟩

/-- C5: under the native contract that create returns either the
sentinel `-1` or a non-negative handle, every socket that `Socket::new`
returns inside `Ok` has a non-negative handle, and the handle stays
non-negative (unchanged) across every `bind` performed between
construction and destruction. -/
theorem c5_handle_nonneg (f : Int → Int → Int) (p : Protocol)
    (s : Socket) (contract : ∀ af pr : Int, f af pr = -1 ∨ 0 ≤ f af pr)
    (hok : Socket.new f p = Except.ok s) :
    0 ≤ s.socket
      ∧ ∀ (g : Int → String → Int) (addr : String),
          0 ≤ ((Socket.bind g s addr).2).socket := by
  obtain ⟨hne, _, hv⟩ := socket_new_ok_elim f p s hok
  have h0 : 0 ≤ s.socket := by
    rcases contract AF_SP (protoId p) with hc | hc
    · exact absurd hc hne
    · rw [hv]; exact hc
  exact ⟨h0, fun g addr => by rw [bind_snd g s addr]; exact h0⟩

/-- C5 witness: a native create returning handle 5 (which satisfies the
native contract) yields a socket whose handle 5 is non-negative and
stays non-negative across any bind. -/
theorem c5_handle_nonneg_witness :
    0 ≤ (Socket.mk none 5).socket
      ∧ ∀ (g : Int → String → Int) (addr : String),
          0 ≤ ((Socket.bind g (Socket.mk none 5) addr).2).socket :=
  c5_handle_nonneg (fun _ _ => 5) Protocol.Pull (Socket.mk none 5)
    (fun _ _ => Or.inr ((by decide : (0 : Int) ≤ 5)))
    (socket_new_ok 5 Protocol.Pull (by decide))

/-- C6: over the whole single-owner lifecycle (create with a
non-sentinel handle, any sequence of binds, scope end), the native
shutdown primitive appears exactly once in the trace of native calls; it
is the last call, on the socket's handle with flags `0`, and no call
follows it; moreover the destructor's result ignores the native shutdown
return value entirely. -/
theorem c6_shutdown_once (v : Int) (p : Protocol) (binds : List String)
    (h : v ≠ -1) :
    (∃ pre : List NativeCall,
        scopeTrace v p binds = pre ++ [NativeCall.shutdownCall v 0]
          ∧ pre.filter isShutdownCall = [])
      ∧ ((scopeTrace v p binds).filter isShutdownCall).length = 1
      ∧ ∀ (h₁ h₂ : Int → Int → Int) (s : Socket),
          Socket.drop h₁ s = Socket.drop h₂ s := by
  have htr : scopeTrace v p binds
      = NativeCall.socketCall AF_SP (protoId p) ::
          (binds.map (fun a => NativeCall.bindCall v a) ++
            [NativeCall.shutdownCall v 0]) := by
    simp [scopeTrace, socket_new_ok v p h, Socket.dropEffect]
  refine ⟨⟨NativeCall.socketCall AF_SP (protoId p) ::
      binds.map (fun a => NativeCall.bindCall v a), ?_, ?_⟩, ?_,
      fun h₁ h₂ s => rfl⟩
  · rw [htr]; simp
  · simp [List.filter, isShutdownCall, filter_shutdown_map_bind]
  · rw [htr]
    simp [List.filter_append, List.filter, isShutdownCall,
      filter_shutdown_map_bind]

/-- C6 witness: the lifecycle trace of a `Pull` socket created with
handle 5 and bound once ends in a single shutdown call with flags 0. -/
theorem c6_shutdown_once_witness :
    (∃ pre : List NativeCall,
        scopeTrace 5 Protocol.Pull ["ipc:///tmp/pipeline.ipc"]
            = pre ++ [NativeCall.shutdownCall 5 0]
          ∧ pre.filter isShutdownCall = [])
      ∧ ((scopeTrace 5 Protocol.Pull
            ["ipc:///tmp/pipeline.ipc"]).filter isShutdownCall).length
          = 1
      ∧ ∀ (h₁ h₂ : Int → Int → Int) (s : Socket),
          Socket.drop h₁ s = Socket.drop h₂ s :=
  c6_shutdown_once 5 Protocol.Pull ["ipc:///tmp/pipeline.ipc"]
    (by decide)

/-- C7: two sequential binds on the same socket with distinct addresses
both return `Ok(())` when the native bind call returns a non-sentinel
status for both; the wrapper does not reject the second bind. -/
theorem c7_sequential_binds (g : Int → String → Int) (s : Socket)
    (a1 a2 : String) (_hne : a1 ≠ a2) (h1 : g s.socket a1 ≠ -1)
    (h2 : g s.socket a2 ≠ -1) :
    (Socket.bind g s a1).1 = Except.ok ()
      ∧ (Socket.bind g ((Socket.bind g s a1).2) a2).1
          = Except.ok () := by
  constructor
  · simp [Socket.bind, h1]
  · rw [bind_snd g s a1]
    simp [Socket.bind, h2]

/-- C7 witness: with a native bind always returning status 0, binding a
socket with handle 5 to two distinct ipc addresses in sequence returns
`Ok(())` both times. -/
theorem c7_sequential_binds_witness :
    (Socket.bind (fun _ _ => 0) (Socket.mk none 5)
        ("ipc:///tmp/a.ipc")).1 = Except.ok ()
      ∧ (Socket.bind (fun _ _ => 0)
          ((Socket.bind (fun _ _ => 0) (Socket.mk none 5)
            ("ipc:///tmp/a.ipc")).2) ("ipc:///tmp/b.ipc")).1
          = Except.ok () :=
  c7_sequential_binds (fun _ _ => 0) (Socket.mk none 5)
    ("ipc:///tmp/a.ipc") ("ipc:///tmp/b.ipc") (by decide) (by decide)
    (by decide)

/-- C8: `Socket::new` and `Socket::bind` are total: for every protocol,
socket, address and every native return value they return a
`NanoResult` (either `Ok` or `Err`), and every native failure sentinel
is surfaced to the immediate caller as a returned error. -/
theorem c8_total_no_panic (f : Int → Int → Int)
    (g : Int → String → Int) (p : Protocol) (s : Socket)
    (addr : String) :
    ((∃ s9 : Socket, Socket.new f p = Except.ok s9)
        ∨ ∃ e : NanoError, Socket.new f p = Except.error e)
      ∧ ((Socket.bind g s addr).1 = Except.ok ()
        ∨ ∃ e : NanoError, (Socket.bind g s addr).1 = Except.error e)
      ∧ (f AF_SP (protoId p) = -1 →
          ∃ e : NanoError, Socket.new f p = Except.error e)
      ∧ (g s.socket addr = -1 →
          ∃ e : NanoError, (Socket.bind g s addr).1 = Except.error e)
      := by
  refine ⟨?_, ?_, ?_, ?_⟩
  · by_cases h : f AF_SP (protoId p) = -1
    · exact Or.inr ⟨NanoError.new
        ("Failed to create a new nanomsg socket. Error: \x7b\x7d")
        ErrorKind.SocketInitializationError, by simp [Socket.new, h]⟩
    · exact Or.inl ⟨{ addr := none, socket := f AF_SP (protoId p) },
        by simp [Socket.new, h]⟩
  · by_cases h : g s.socket addr = -1
    · exact Or.inr ⟨NanoError.new
        ("Failed to find the socket to the address: " ++ addr)
        ErrorKind.SocketBindError, by simp [Socket.bind, h]⟩
    · exact Or.inl (by simp [Socket.bind, h])
  · intro h
    exact ⟨NanoError.new
      ("Failed to create a new nanomsg socket. Error: \x7b\x7d")
      ErrorKind.SocketInitializationError, by simp [Socket.new, h]⟩
  · intro h
    exact ⟨NanoError.new
      ("Failed to find the socket to the address: " ++ addr)
      ErrorKind.SocketBindError, by simp [Socket.bind, h]⟩

/-- C8 witness: with native primitives that always return the sentinel
`-1`, creating a `Req` socket and binding a socket with handle 3 both
return values (errors), and the sentinel surfaces as a returned error in
both cases. -/
theorem c8_total_no_panic_witness :
    ((∃ s9 : Socket,
        Socket.new (fun _ _ => -1) Protocol.Req = Except.ok s9)
        ∨ ∃ e : NanoError,
            Socket.new (fun _ _ => -1) Protocol.Req = Except.error e)
      ∧ ((Socket.bind (fun _ _ => -1) (Socket.mk none 3) ("x")).1
            = Except.ok ()
        ∨ ∃ e : NanoError,
            (Socket.bind (fun _ _ => -1) (Socket.mk none 3) ("x")).1
              = Except.error e)
      ∧ (∃ e : NanoError,
          Socket.new (fun _ _ => -1) Protocol.Req = Except.error e)
      ∧ (∃ e : NanoError,
          (Socket.bind (fun _ _ => -1) (Socket.mk none 3) ("x")).1
            = Except.error e) := by
  have h := c8_total_no_panic (fun _ _ => -1) (fun _ _ => -1)
    Protocol.Req (Socket.mk none 3) ("x")
  exact ⟨h.1, h.2.1, h.2.2.1 rfl, h.2.2.2 rfl⟩

/-- C9: `bind` leaves every field of the socket unchanged, on success
and failure alike — the state passed through `bind` is returned exactly
as it came in — and the `addr` field, which `Socket::new` initializes to
`none`, is never assigned by `bind`. -/
theorem c9_bind_frame (g : Int → String → Int) (s : Socket)
    (addr : String) (f : Int → Int → Int) (p : Protocol)
    (s0 : Socket) :
    ((Socket.bind g s addr).2).addr = s.addr
      ∧ ((Socket.bind g s addr).2).socket = s.socket
      ∧ (Socket.bind g s addr).2 = s
      ∧ (Socket.new f p = Except.ok s0 → s0.addr = none) := by
  have hb := bind_snd g s addr
  exact ⟨by rw [hb], by rw [hb], hb,
    fun hok => (socket_new_ok_elim f p s0 hok).2.1⟩

/-- C9 witness: binding the socket with handle 7 changes none of its
fields, and the socket produced by a successful create (handle 9) has
`addr = none`. -/
theorem c9_bind_frame_witness :
    ((Socket.bind (fun _ _ => 0) (Socket.mk none 7)
        ("inproc://x")).2).addr = (Socket.mk none 7).addr
      ∧ ((Socket.bind (fun _ _ => 0) (Socket.mk none 7)
          ("inproc://x")).2).socket = (Socket.mk none 7).socket
      ∧ (Socket.bind (fun _ _ => 0) (Socket.mk none 7)
          ("inproc://x")).2 = Socket.mk none 7
      ∧ (Socket.mk none 9).addr = none := by
  have h := c9_bind_frame (fun _ _ => 0) (Socket.mk none 7)
    ("inproc://x") (fun _ _ => 9) Protocol.Push (Socket.mk none 9)
  exact ⟨h.1, h.2.1, h.2.2.1,
    h.2.2.2 (socket_new_ok 9 Protocol.Push (by decide))⟩

/-- C10: `Socket::new` treats exactly the native return value `-1` as
failure: for every native return value different from `-1`, including
other negative values, it returns `Ok` with a socket whose handle is
that value. -/
theorem c10_only_sentinel_fails (f : Int → Int → Int) (p : Protocol)
    (h : f AF_SP (protoId p) ≠ -1) :
    Socket.new f p
      = Except.ok { addr := none, socket := f AF_SP (protoId p) } := by
  simp [Socket.new, h]

/-- C10 witness: a native create returning `-2` (negative but not the
sentinel) still yields `Ok` with handle `-2`. -/
theorem c10_only_sentinel_fails_witness :
    Socket.new (fun _ _ => -2) Protocol.Req
      = Except.ok { addr := none, socket := -2 } :=
  c10_only_sentinel_fails (fun _ _ => -2) Protocol.Req (by decide)

end Nanomsg
